import Mathlib

/-!
Shallow embedding of the CAP cadet orientation-flight points and slotting
tool (`oflight.py`).  Pure fragments of the script become Lean functions;
pandas rows become an explicit `Row` structure; the two `strptime` formats
used by `parse_date` are modelled at the character-list level, following
CPython's `_strptime` regexes (`%b` is a case-insensitive month
abbreviation, `%y` exactly two digits with the 69-pivot, `%Y` exactly four
digits, `%d` one or two digits in 1..31, a literal space matches a
whitespace run, and the whole string must be consumed).  `datetime.now()`
is passed in explicitly as a `Date` value.
-/

/-- Extra points for cadets with no powered flights (`NO_FLIGHT_FACTOR`). -/
def NO_FLIGHT_FACTOR : Int := 5

/-- Points per remaining powered flight (`FLIGHT_FACTOR`). -/
def FLIGHT_FACTOR : Int := 5

/-- Points per month since the last powered flight (`DATE_FACTOR`). -/
def DATE_FACTOR : Int := 1

/-- Required columns in the input CSV (`REQUIRED_COLUMNS`). -/
def REQUIRED_COLUMNS : List String := ["Miles", "Textbox39", "Textbox25", "GroupType", "Joined"]

/-- A calendar date, standing for a Python `datetime` (time of day ignored:
the script only ever reads `year` and `month`, plus the validity check on
`day` made by the `datetime` constructor). -/
structure Date where
  year : Nat
  month : Nat
  day : Nat
deriving DecidableEq

/-- Lower-cased English month abbreviations, as matched by `%b`. -/
def MONTH_ABBREVS : List (List Char) :=
  [['j','a','n'], ['f','e','b'], ['m','a','r'], ['a','p','r'],
   ['m','a','y'], ['j','u','n'], ['j','u','l'], ['a','u','g'],
   ['s','e','p'], ['o','c','t'], ['n','o','v'], ['d','e','c']]

/-- Pattern `%b`: a month abbreviation, matched case-insensitively; yields 1..12. -/
def parseMonthAbbr (tok : List Char) : Option Nat :=
  (MONTH_ABBREVS.findIdx? (fun m => m = tok.map Char.toLower)).map (· + 1)

/-- Numeric value of a digit string. -/
def digitsToNat (tok : List Char) : Nat :=
  tok.foldl (fun a c => a * 10 + (c.toNat - 48)) 0

/-- Pattern `%y`: exactly two digits, pivoted as in CPython (0-68 ↦ 2000-2068,
69-99 ↦ 1969-1999). -/
def parse2Year (tok : List Char) : Option Nat :=
  if tok.length = 2 ∧ tok.all Char.isDigit then
    some (if digitsToNat tok ≤ 68 then 2000 + digitsToNat tok else 1900 + digitsToNat tok)
  else none

/-- Pattern `%d`: one or two digits with value 1..31 (the regex
`3[01]|[12]\d|0[1-9]|[1-9]`). -/
def parseDayTok (tok : List Char) : Option Nat :=
  if (tok.length = 1 ∨ tok.length = 2) ∧ tok.all Char.isDigit then
    if 1 ≤ digitsToNat tok ∧ digitsToNat tok ≤ 31 then some (digitsToNat tok) else none
  else none

/-- Pattern `%Y`: exactly four digits; the `datetime` constructor additionally
requires `year ≥ 1`. -/
def parse4Year (tok : List Char) : Option Nat :=
  if tok.length = 4 ∧ tok.all Char.isDigit ∧ 1 ≤ digitsToNat tok then
    some (digitsToNat tok)
  else none

/-- Gregorian leap-year rule, as used by `datetime`. -/
def isLeapYear (y : Nat) : Bool :=
  y % 4 = 0 && (y % 100 ≠ 0 || y % 400 = 0)

/-- Length of a month, as validated by the `datetime` constructor. -/
def daysInMonth (y m : Nat) : Nat :=
  if m = 2 then (if isLeapYear y then 29 else 28)
  else if m = 4 ∨ m = 6 ∨ m = 9 ∨ m = 11 then 30
  else 31

/-- Model of `str.split(sep)` for a single-character separator, on character lists. -/
def splitCh (c : Char) : List Char → List (List Char)
  | [] => [[]]
  | x :: xs =>
    match splitCh c xs with
    | [] => [[]]
    | h :: t => if x = c then [] :: h :: t else (x :: h) :: t

/-- Model of `datetime.strptime(s, "%b-%y-%d")`: month abbreviation, hyphen, two-digit
year, hyphen, day; the whole string must match, and the day must exist in
the month. -/
def strptime_b_y_d (s : List Char) : Option Date :=
  match splitCh '-' s with
  | [m, y, d] =>
    match parseMonthAbbr m, parse2Year y, parseDayTok d with
    | some mo, some yr, some dd =>
      if dd ≤ daysInMonth yr mo then some ⟨yr, mo, dd⟩ else none
    | _, _, _ => none
  | _ => none

/-- Model of `datetime.strptime(s, "%d %b %Y")`: day, whitespace run, month
abbreviation, whitespace run, four-digit year; the whole string must match,
and the day must exist in the month. -/
def strptime_d_b_Y (s : List Char) : Option Date :=
  let dTok := s.takeWhile Char.isDigit
  let r1 := s.dropWhile Char.isDigit
  let r2 := r1.dropWhile Char.isWhitespace
  let mTok := r2.takeWhile Char.isAlpha
  let r3 := r2.dropWhile Char.isAlpha
  let r4 := r3.dropWhile Char.isWhitespace
  match parseDayTok dTok, parseMonthAbbr mTok, parse4Year r4 with
  | some dd, some mo, some yr =>
    if (r1.takeWhile Char.isWhitespace ≠ [] ∧ r3.takeWhile Char.isWhitespace ≠ [])
        ∧ dd ≤ daysInMonth yr mo then
      some ⟨yr, mo, dd⟩
    else none
  | _, _, _ => none

/-- Model of `parse_date`: a string splitting into exactly 2 hyphen-parts is parsed
by appending `"-01"` and using `"%b-%y-%d"`; otherwise `"%d %b %Y"` is
tried.  Any parse failure yields `none`. -/
def parse_date (s : String) : Option Date :=
  if (splitCh '-' s.data).length = 2 then
    strptime_b_y_d (s.data ++ ('-' :: '0' :: '1' :: []))
  else
    strptime_d_b_Y s.data

/-- Model of `calculate_months_since`: calendar month difference between "today" and
the parsed date, floored at 0; an empty or unparsable string yields 0. -/
def calculate_months_since (today : Date) (date_str : String) : Int :=
  if date_str = "" then 0
  else
    match parse_date date_str with
    | none => 0
    | some d =>
      max 0 (((today.year : Int) - (d.year : Int)) * 12
        + ((today.month : Int) - (d.month : Int)))

/-- One row of the (renamed) orientation report: the columns the scoring
logic reads.  A `powered_i` cell is `none` when `pd.notna` is false. -/
structure Row where
  capid : String
  fullName : String
  groupType : String
  joined : String
  powered_1 : Option String
  powered_2 : Option String
  powered_3 : Option String
  powered_4 : Option String
  powered_5 : Option String
deriving DecidableEq

/-- The `powered_i` column of a row, by ordinal. -/
def Row.powered (r : Row) : Nat → Option String
  | 1 => r.powered_1
  | 2 => r.powered_2
  | 3 => r.powered_3
  | 4 => r.powered_4
  | 5 => r.powered_5
  | _ => none

/-- Python `str.strip()`: remove leading and trailing whitespace. -/
def pyStrip (s : String) : String :=
  ⟨((s.data.dropWhile Char.isWhitespace).reverse.dropWhile Char.isWhitespace).reverse⟩

/-- The test `pd.notna(row[col]) and row[col].strip()` applied to a cell. -/
def isPresent (v : Option String) : Bool :=
  match v with
  | none => false
  | some s => !(pyStrip s == "")

/-- Model of `count_powered_flights`: number of non-blank `powered_i` cells. -/
def count_powered_flights (r : Row) : Nat :=
  ([1, 2, 3, 4, 5] : List Nat).countP (fun i => isPresent (r.powered i))

/-- The loop body of `find_last_powered_date` over a list of ordinals. -/
def find_last_powered_aux (r : Row) : List Nat → String
  | [] => r.joined
  | i :: rest =>
    match r.powered i with
    | some v => if pyStrip v == "" then find_last_powered_aux r rest else v
    | none => find_last_powered_aux r rest

/-- Model of `find_last_powered_date`: scan `powered_5` down to `powered_1`, return
the first non-blank value, else the `Joined` date. -/
def find_last_powered_date (r : Row) : String :=
  find_last_powered_aux r [5, 4, 3, 2, 1]

/-- Model of `calculate_flight_points`, reading the `powered_count` column. -/
def calculate_flight_points (groupType : String) (powered_count : Nat) : Int :=
  if groupType = "No O-Flights" then
    (5 - (powered_count : Int)) * FLIGHT_FACTOR + NO_FLIGHT_FACTOR
  else
    (5 - (powered_count : Int)) * FLIGHT_FACTOR

/-- Model of `calculate_date_points`. -/
def calculate_date_points (today : Date) (last_powered : String) : Int :=
  calculate_months_since today last_powered * DATE_FACTOR

/-- A row of the scored table, with the derived columns of `process_data`. -/
structure ScoredRow where
  capid : String
  fullName : String
  groupType : String
  powered_count : Nat
  last_powered : String
  flight_points : Int
  date_points : Int
  total_points : Int
deriving DecidableEq

/-- The per-row derived columns computed by `process_data` (the sort of the
resulting table is handled separately). -/
def scoreRow (today : Date) (r : Row) : ScoredRow :=
  { capid := r.capid
    fullName := r.fullName
    groupType := r.groupType
    powered_count := count_powered_flights r
    last_powered := find_last_powered_date r
    flight_points := calculate_flight_points r.groupType (count_powered_flights r)
    date_points := calculate_date_points today (find_last_powered_date r)
    total_points := calculate_flight_points r.groupType (count_powered_flights r)
      + calculate_date_points today (find_last_powered_date r) }

/-- Model of `validate_dataframe`: the missing required columns, as a schema error. -/
def validate_dataframe (columns : List String) : Except (List String) Unit :=
  let missing := REQUIRED_COLUMNS.filter (fun c => !(columns.contains c))
  if missing.isEmpty then Except.ok () else Except.error missing

/-- The loop of `read_cadet_list`: `cap_ids` is the accumulated output,
`seen` the membership set. -/
def read_cadet_list_aux : List String → List String → List String → List String
  | [], cap_ids, _ => cap_ids
  | line :: rest, cap_ids, seen =>
    if !(pyStrip line == "") ∧ ¬ seen.contains (pyStrip line) then
      read_cadet_list_aux rest (cap_ids ++ [pyStrip line]) (pyStrip line :: seen)
    else
      read_cadet_list_aux rest cap_ids seen

/-- Model of `read_cadet_list` applied to the lines of a readable file (each line
already separated; `strip` removes the newline and surrounding blanks). -/
def read_cadet_list (lines : List String) : List String :=
  read_cadet_list_aux lines [] []

/-- Model of `read_cadet_list` including its exception handler: an unreadable file
(`none`) yields the empty list. -/
def read_cadet_list_file : Option (List String) → List String
  | none => []
  | some lines => read_cadet_list lines

/-- Spec-side description of first-occurrence deduplication. -/
def dedupFirst : List String → List String
  | [] => []
  | x :: xs => x :: dedupFirst (xs.filter (fun y => !(y == x)))
termination_by l => l.length
decreasing_by
  have h := List.length_filter_le (fun y => !(y == x)) xs
  simp only [List.length_cons]
  omega

/-- First-occurrence dedup relative to an already-seen set. -/
def dedupSeen : List String → List String → List String
  | _, [] => []
  | seen, x :: xs =>
    if seen.contains x then dedupSeen seen xs else x :: dedupSeen (x :: seen) xs

/-- Spec-side description of trimming and blank-skipping. -/
def trimmedNonBlank (lines : List String) : List String :=
  (lines.map pyStrip).filter (fun s => !(s == ""))

/-- The filter `df[df['CAPID'].isin(cap_ids)]`: keep the scored rows whose identifier
string occurs in the candidate list, in table order. -/
def filter_by_capids (df : List ScoredRow) (cap_ids : List String) : List ScoredRow :=
  df.filter (fun r => cap_ids.contains r.capid)

/-- The comprehension `[id for id in cap_ids if id not in matched_ids]` where
`matched_ids = set(filtered_df['CAPID'])`. -/
def unmatched_ids (cap_ids : List String) (filtered : List ScoredRow) : List String :=
  cap_ids.filter (fun cid => !((filtered.map ScoredRow.capid).contains cid))

/-- Python slice `l[:n]` (`DataFrame.head(n)`): negative `n` keeps all but
the last `|n|` elements. -/
def pySliceTo (l : List ScoredRow) (n : Int) : List ScoredRow :=
  if 0 ≤ n then l.take n.toNat else l.take (l.length - (-n).toNat)

/-- Python slice `l[n:]` (`DataFrame.iloc[n:]`). -/
def pySliceFrom (l : List ScoredRow) (n : Int) : List ScoredRow :=
  if 0 ≤ n then l.drop n.toNat else l.drop (l.length - (-n).toNat)

/-- The grouping emitted by `write_slotting_results`: either a
primary/alternates split or one undivided list. -/
inductive SlotGroups where
  | split (primary alternates : List ScoredRow)
  | single (all : List ScoredRow)
deriving DecidableEq

/-- The branch structure of `write_slotting_results`: `if slot_count and
len(sorted_df) > slot_count` splits at `slot_count`, anything else (no
count, a zero count, or a small enough table) writes one list.  A `None`
count is `none`; `0` is falsy in Python, hence also the single list. -/
def write_slotting_groups (sorted_df : List ScoredRow) (slot_count : Option Int) : SlotGroups :=
  match slot_count with
  | none => SlotGroups.single sorted_df
  | some n =>
    if n ≠ 0 ∧ (sorted_df.length : Int) > n then
      SlotGroups.split (pySliceTo sorted_df n) (pySliceFrom sorted_df n)
    else
      SlotGroups.single sorted_df

/-- A fixed "now" used for concrete instantiations. -/
def nowDate : Date := ⟨2026, 1, 15⟩

/-- A concrete row in the distinguished "No O-Flights" group. -/
def rowNoFli : Row :=
  ⟨"123456", "Cadet One", "No O-Flights", "Jan-20", none, none, none, none, none⟩

/-- A concrete row with a joined date and no powered flights. -/
def rowJoined : Row :=
  ⟨"234567", "Cadet Two", "Has Flights", "01 Jan 2020", none, none, none, none, none⟩

/-- A row whose powered cells are all blank (missing, empty, or
whitespace-only) and whose joined date is the empty string. -/
def rowAllBlank : Row :=
  ⟨"345678", "Cadet Three", "Has Flights", "", some "", some " ", none, none, none⟩

/-- A scored row whose identifier carries a leading zero. -/
def scoredA : ScoredRow := ⟨"0100", "Cadet Alpha", "CADET", 0, "Jan-20", 25, 5, 30⟩

/-- A scored row whose identifier is the same number without the zero. -/
def scoredB : ScoredRow := ⟨"100", "Cadet Bravo", "CADET", 1, "Feb-20", 20, 4, 24⟩

/-- C1: for every record, `flight_points` is `(5 - powered_count) *
FLIGHT_FACTOR` plus a flat `NO_FLIGHT_FACTOR` exactly when the group
classification is the distinguished `"No O-Flights"` category; the count is
at most 5, so with the default factors the value lies in 0..25 for ordinary
records and 5..30 for the bonus category. -/
theorem C1_flight_points (today : Date) (r : Row) :
    (scoreRow today r).flight_points
        = (5 - (count_powered_flights r : Int)) * FLIGHT_FACTOR
          + (if r.groupType = "No O-Flights" then NO_FLIGHT_FACTOR else 0)
    ∧ count_powered_flights r ≤ 5
    ∧ (r.groupType ≠ "No O-Flights" →
        0 ≤ (scoreRow today r).flight_points ∧ (scoreRow today r).flight_points ≤ 25)
    ∧ (r.groupType = "No O-Flights" →
        5 ≤ (scoreRow today r).flight_points ∧ (scoreRow today r).flight_points ≤ 30) := by
  have hpc : count_powered_flights r ≤ 5 := by
    have h := List.countP_le_length (p := fun i => isPresent (r.powered i))
      (l := ([1, 2, 3, 4, 5] : List Nat))
    simpa [count_powered_flights] using h
  have hpcI : (count_powered_flights r : Int) ≤ 5 := by exact_mod_cast hpc
  refine ⟨?_, hpc, ?_, ?_⟩
  · by_cases h : r.groupType = "No O-Flights" <;>
      simp [scoreRow, calculate_flight_points, h]
  · intro h
    simp only [scoreRow, calculate_flight_points, if_neg h, FLIGHT_FACTOR]
    omega
  · intro h
    simp only [scoreRow, calculate_flight_points, if_pos h, FLIGHT_FACTOR, NO_FLIGHT_FACTOR]
    omega

/-- Witness for C1 at a concrete record of the bonus category. -/
theorem C1_flight_points_witness :
    5 ≤ (scoreRow nowDate rowNoFli).flight_points
    ∧ (scoreRow nowDate rowNoFli).flight_points ≤ 30 :=
  (C1_flight_points nowDate rowNoFli).2.2.2 (by decide)

/-- C10: a supplied slot count of exactly 0 always produces the single
undivided list (0 is falsy in the `if slot_count and ...` test), for every
filtered set, even a non-empty one. -/
theorem C10_zero_slot_count (sorted_df : List ScoredRow) :
    write_slotting_groups sorted_df (some 0) = SlotGroups.single sorted_df := by
  simp [write_slotting_groups]

/-- C6 (amended): validation passes exactly when every column of
`REQUIRED_COLUMNS` (`Miles`, `Textbox39`, `Textbox25`, `GroupType`,
`Joined`) is present, and on failure the schema error lists exactly the
missing required columns; the legacy activity-slot columns are not part of
the validated set. -/
theorem C6_validate_required_columns (columns : List String) :
    (validate_dataframe columns = Except.ok () ↔ ∀ c ∈ REQUIRED_COLUMNS, c ∈ columns)
    ∧ (∀ missing, validate_dataframe columns = Except.error missing →
        missing ≠ [] ∧ ∀ c, c ∈ missing ↔ c ∈ REQUIRED_COLUMNS ∧ c ∉ columns) := by
  have hmem : ∀ c, c ∈ REQUIRED_COLUMNS.filter (fun c => !(columns.contains c))
      ↔ c ∈ REQUIRED_COLUMNS ∧ c ∉ columns := by
    intro c
    simp [List.mem_filter, List.contains]
  constructor
  · constructor
    · intro h c hc
      simp only [validate_dataframe] at h
      by_cases he : (REQUIRED_COLUMNS.filter (fun c => !(columns.contains c))).isEmpty
      · have hnil := List.isEmpty_iff.mp he
        by_contra hcol
        have : c ∈ REQUIRED_COLUMNS.filter (fun c => !(columns.contains c)) :=
          (hmem c).mpr ⟨hc, hcol⟩
        rw [hnil] at this
        exact absurd this (List.not_mem_nil c)
      · rw [if_neg he] at h
        exact absurd h (by simp)
    · intro h
      have hnil : REQUIRED_COLUMNS.filter (fun c => !(columns.contains c)) = [] := by
        rw [List.filter_eq_nil_iff]
        intro c hc
        simp [List.contains, h c hc]
      simp only [validate_dataframe, hnil, List.isEmpty_nil, if_pos]
  · intro missing h
    simp only [validate_dataframe] at h
    by_cases he : (REQUIRED_COLUMNS.filter (fun c => !(columns.contains c))).isEmpty
    · rw [if_pos he] at h
      exact absurd h (by simp)
    · rw [if_neg he] at h
      have hm : missing = REQUIRED_COLUMNS.filter (fun c => !(columns.contains c)) :=
        (Except.error.injEq _ _ ▸ h).symm
      subst hm
      refine ⟨fun hnil => he (by rw [hnil]; rfl), fun c => hmem c⟩

/-- Witness for C6: a table lacking only `Joined` yields a schema error
listing it, and `Joined` is indeed a required column absent there. -/
theorem C6_validate_required_columns_witness :
    "Joined" ∈ REQUIRED_COLUMNS
    ∧ "Joined" ∉ (["Miles", "Textbox39", "Textbox25", "GroupType"] : List String) :=
  (((C6_validate_required_columns
      ["Miles", "Textbox39", "Textbox25", "GroupType"]).2 ["Joined"]
      (by rfl)).2 "Joined").mp (by decide)

/-- Counterexample to C6 as stated: a table holding only the five columns
of `REQUIRED_COLUMNS`, hence none of the ten legacy activity-slot columns,
passes validation, although the claim places those ten columns in the
required set. -/
theorem C6_counterexample :
    validate_dataframe ["Miles", "Textbox39", "Textbox25", "GroupType", "Joined"]
      = Except.ok ()
    ∧ "Textbox135" ∉ (["Miles", "Textbox39", "Textbox25", "GroupType", "Joined"] : List String)
    ∧ "Textbox130" ∉ (["Miles", "Textbox39", "Textbox25", "GroupType", "Joined"] : List String) :=
  ⟨by rfl, by decide, by decide⟩

/-- C8: the Slotter's candidate filter matches a scored record exactly when
the candidate identifier string equals the record's identifier string, so
`"0100"` matches identifier `"0100"` and not `"100"`. -/
theorem C8_textual_identifier_matching :
    (∀ (df : List ScoredRow) (cap_ids : List String) (r : ScoredRow),
        r ∈ filter_by_capids df cap_ids ↔ r ∈ df ∧ r.capid ∈ cap_ids)
    ∧ filter_by_capids [scoredA] ["0100"] = [scoredA]
    ∧ filter_by_capids [scoredB] ["0100"] = [] := by
  refine ⟨?_, by decide, by decide⟩
  intro df cap_ids r
  simp [filter_by_capids, List.mem_filter, List.contains]

/-- The ordinal scan of `find_last_powered_date` returns the value at the
first ordinal (in scan order) whose cell is non-blank, else `Joined`. -/
theorem find_last_powered_aux_eq (r : Row) (l : List Nat) :
    find_last_powered_aux r l
      = match l.find? (fun i => isPresent (r.powered i)) with
        | some i => (r.powered i).getD r.joined
        | none => r.joined := by
  induction l with
  | nil => rfl
  | cons i rest ih =>
    cases hp : r.powered i with
    | none =>
      simp [find_last_powered_aux, hp, List.find?_cons, isPresent, ih]
    | some v =>
      by_cases hv : (pyStrip v == "") = true
      · simp [find_last_powered_aux, hp, List.find?_cons, isPresent, hv, ih]
      · have hv' : (pyStrip v == "") = false := by simpa using hv
        simp [find_last_powered_aux, hp, List.find?_cons, isPresent, hv']

/-- C5 (amended): `find_last_powered_date` scans `powered_5` down to
`powered_1` and returns the first non-blank value, where blank means
missing, empty or whitespace-only; if all five cells are blank it returns
the record's `Joined` date, and the result is non-empty whenever the
`Joined` date is non-empty. -/
theorem C5_find_last_powered (r : Row) :
    find_last_powered_date r
        = (match ([5, 4, 3, 2, 1] : List Nat).find? (fun i => isPresent (r.powered i)) with
          | some i => (r.powered i).getD r.joined
          | none => r.joined)
    ∧ ((∀ i, isPresent (r.powered i) = false) → find_last_powered_date r = r.joined)
    ∧ (r.joined ≠ "" → find_last_powered_date r ≠ "") := by
  have hchar := find_last_powered_aux_eq r [5, 4, 3, 2, 1]
  refine ⟨hchar, ?_, ?_⟩
  · intro hall
    have hnone : ([5, 4, 3, 2, 1] : List Nat).find? (fun i => isPresent (r.powered i))
        = none := by
      rw [List.find?_eq_none]
      intro i _
      simp [hall i]
    show find_last_powered_aux r [5, 4, 3, 2, 1] = r.joined
    rw [hchar, hnone]
  · intro hj hcontra
    cases hfind : ([5, 4, 3, 2, 1] : List Nat).find? (fun i => isPresent (r.powered i)) with
    | none =>
      have hstep : find_last_powered_date r = r.joined := by
        show find_last_powered_aux r [5, 4, 3, 2, 1] = r.joined
        rw [hchar, hfind]
      exact hj (hstep ▸ hcontra)
    | some i =>
      have hstep : find_last_powered_date r = (r.powered i).getD r.joined := by
        show find_last_powered_aux r [5, 4, 3, 2, 1] = (r.powered i).getD r.joined
        rw [hchar, hfind]
      have hp : isPresent (r.powered i) = true := by
        have hb := List.find?_some (p := fun j => isPresent (r.powered j)) hfind
        simpa using hb
      cases hpi : r.powered i with
      | none => rw [hpi] at hp; exact absurd hp (by simp [isPresent])
      | some v =>
        rw [hpi] at hp hstep
        simp only [Option.getD_some] at hstep
        rw [hstep] at hcontra
        rw [hcontra] at hp
        exact absurd hp (by decide)

/-- Witness for C5 at a record with blank powered cells and a non-empty
joined date. -/
theorem C5_find_last_powered_witness : find_last_powered_date rowJoined ≠ "" :=
  (C5_find_last_powered rowJoined).2.2 (by decide)

/-- Counterexample to C5 as stated: a record whose five powered cells are
all blank and whose joined date is the empty string yields an empty
`last_powered`, so the returned value is not always non-empty. -/
theorem C5_counterexample : find_last_powered_date rowAllBlank = "" := by decide

/-- C2: for any record whose `last_powered` string parses to a date `d`,
`date_points` equals the calendar month difference `(year_now - year_then)
* 12 + (month_now - month_then)` floored at 0 and multiplied by
`DATE_FACTOR`; `date_points` is non-negative for every string, and zero
when the parsed date lies in the current or a future month. -/
theorem C2_date_points (today : Date) (s : String) (d : Date)
    (h : parse_date s = some d) :
    calculate_date_points today s
        = max 0 (((today.year : Int) - (d.year : Int)) * 12
            + ((today.month : Int) - (d.month : Int))) * DATE_FACTOR
    ∧ (∀ t : String, 0 ≤ calculate_date_points today t)
    ∧ (((today.year : Int) - (d.year : Int)) * 12
          + ((today.month : Int) - (d.month : Int)) ≤ 0 →
        calculate_date_points today s = 0) := by
  have hne : s ≠ "" := by
    intro he
    rw [he] at h
    rw [show parse_date "" = (none : Option Date) from rfl] at h
    exact Option.noConfusion h
  have hmain : calculate_months_since today s
      = max 0 (((today.year : Int) - (d.year : Int)) * 12
          + ((today.month : Int) - (d.month : Int))) := by
    simp [calculate_months_since, hne, h]
  refine ⟨?_, ?_, ?_⟩
  · simp [calculate_date_points, hmain]
  · intro t
    simp only [calculate_date_points, DATE_FACTOR, mul_one, calculate_months_since]
    by_cases ht : t = ""
    · simp [ht]
    · simp only [if_neg ht]
      cases hpt : parse_date t with
      | none => exact le_refl 0
      | some e => exact le_max_left 0 _
  · intro hle
    simp [calculate_date_points, hmain, max_eq_left hle]

/-- Witness for C2: "Mar-25" seen from January 2026 is 10 months. -/
theorem C2_date_points_witness : calculate_date_points nowDate "Mar-25" = 10 := by
  have h := (C2_date_points nowDate "Mar-25" ⟨2025, 3, 1⟩ (by decide)).1
  rw [h]
  decide

/-- The split `splitCh` never yields the empty list of parts. -/
theorem splitCh_ne_nil (c : Char) (l : List Char) : splitCh c l ≠ [] := by
  cases l with
  | nil => simp [splitCh]
  | cons x xs =>
    simp only [splitCh]
    cases h : splitCh c xs with
    | nil => simp
    | cons hd tl => by_cases hx : x = c <;> simp [hx]

/-- Splitting around an explicit separator concatenates the two splits. -/
theorem splitCh_append (c : Char) (xs ys : List Char) :
    splitCh c (xs ++ c :: ys) = splitCh c xs ++ splitCh c ys := by
  induction xs with
  | nil =>
    simp only [List.nil_append, splitCh]
    cases h : splitCh c ys with
    | nil => exact absurd h (splitCh_ne_nil c ys)
    | cons hd tl => simp
  | cons x xs ih =>
    simp only [List.cons_append, splitCh, List.append_eq]
    rw [ih]
    cases h : splitCh c xs with
    | nil => exact absurd h (splitCh_ne_nil c xs)
    | cons hd tl => by_cases hx : x = c <;> simp [hx]

/-- C7: a date string splitting into exactly two hyphen-parts is parsed as
an abbreviated month and a two-digit year, interpreted as the first day of
that month; any other string is parsed with the day / abbreviated-month /
four-digit-year format; and whenever parsing yields no date the record
contributes 0 months, with no exception escaping. -/
theorem C7_parse_date_formats (s : String) (today : Date) :
    (∀ m y, splitCh '-' s.data = [m, y] →
        parse_date s
          = (parseMonthAbbr m).bind (fun mo =>
              (parse2Year y).map (fun yr => ⟨yr, mo, 1⟩)))
    ∧ ((splitCh '-' s.data).length ≠ 2 → parse_date s = strptime_d_b_Y s.data)
    ∧ (parse_date s = none → calculate_months_since today s = 0) := by
  refine ⟨?_, ?_, ?_⟩
  · intro m y hsplit
    have hlen : (splitCh '-' s.data).length = 2 := by rw [hsplit]; rfl
    have happ : splitCh '-' (s.data ++ ('-' :: '0' :: '1' :: [])) = [m, y, ['0', '1']] := by
      rw [splitCh_append, hsplit]
      rfl
    unfold parse_date
    rw [if_pos hlen]
    cases hm : parseMonthAbbr m with
    | none => simp [strptime_b_y_d, happ, hm]
    | some mo =>
      cases hy : parse2Year y with
      | none => simp [strptime_b_y_d, happ, hm, hy]
      | some yr =>
        have hd : parseDayTok ('0' :: '1' :: []) = some 1 := rfl
        have hle : 1 ≤ daysInMonth yr mo := by
          unfold daysInMonth
          split <;> split <;> omega
        simp [strptime_b_y_d, happ, hm, hy, hd, hle]
  · intro hlen
    unfold parse_date
    rw [if_neg hlen]
  · intro hn
    simp [calculate_months_since, hn]

/-- Witness for C7 on both formats and on an unparsable string. -/
theorem C7_parse_date_formats_witness :
    parse_date "Mar-25" = some ⟨2025, 3, 1⟩
    ∧ parse_date "09 Mar 2023" = some ⟨2023, 3, 9⟩
    ∧ calculate_months_since nowDate "garbage" = 0 := by
  refine ⟨?_, ?_, ?_⟩
  · have h := (C7_parse_date_formats "Mar-25" nowDate).1
      ('M' :: 'a' :: 'r' :: []) ('2' :: '5' :: []) (by decide)
    rw [h]
    decide
  · have h := (C7_parse_date_formats "09 Mar 2023" nowDate).2.1 (by decide)
    rw [h]
    decide
  · exact (C7_parse_date_formats "garbage" nowDate).2.2 (by decide)

/-- Dedup relative to a seen set is first-occurrence dedup of the elements
not yet seen. -/
theorem dedupSeen_eq (xs : List String) :
    ∀ seen, dedupSeen seen xs = dedupFirst (xs.filter (fun s => !(seen.contains s))) := by
  induction xs with
  | nil =>
    intro seen
    simp [dedupSeen, dedupFirst]
  | cons x xs ih =>
    intro seen
    rw [List.filter_cons]
    by_cases hx : seen.contains x = true
    · rw [if_neg (by rw [hx]; decide)]
      simp only [dedupSeen, if_pos hx]
      exact ih seen
    · have hxF : seen.contains x = false := by
        cases hc : seen.contains x with
        | true => exact absurd hc hx
        | false => rfl
      rw [if_pos (by rw [hxF]; decide)]
      simp only [dedupSeen, if_neg hx]
      rw [dedupFirst, ih (x :: seen)]
      congr 1
      rw [List.filter_filter]
      congr 1
      apply List.filter_congr
      intro a _
      simp only [List.contains_cons, Bool.not_or]

/-- The loop of `read_cadet_list` appends exactly the first occurrences of
the trimmed non-blank lines not already seen. -/
theorem read_cadet_list_aux_eq (lines : List String) :
    ∀ seen acc : List String,
    read_cadet_list_aux lines acc seen
      = acc ++ dedupSeen seen ((lines.map pyStrip).filter (fun s => !(s == ""))) := by
  induction lines with
  | nil =>
    intro seen acc
    simp [read_cadet_list_aux, dedupSeen]
  | cons line rest ih =>
    intro seen acc
    rw [List.map_cons, List.filter_cons]
    by_cases h1 : pyStrip line = ""
    · have hcond : ¬((!(pyStrip line == "")) = true ∧ ¬ seen.contains (pyStrip line) = true) := by
        simp [h1]
      rw [if_neg (by simp [h1])]
      simp only [read_cadet_list_aux, if_neg hcond]
      exact ih seen acc
    · rw [if_pos (by simp [h1])]
      by_cases h2 : seen.contains (pyStrip line) = true
      · have h2m : pyStrip line ∈ seen := List.mem_of_elem_eq_true h2
        have hcond : ¬((!(pyStrip line == "")) = true ∧ ¬ seen.contains (pyStrip line) = true) := by
          simp [h2m]
        simp only [read_cadet_list_aux, if_neg hcond]
        rw [ih seen acc]
        simp only [dedupSeen, if_pos h2]
      · have h2m : pyStrip line ∉ seen := fun hm => h2 (List.elem_eq_true_of_mem hm)
        have hcond : (!(pyStrip line == "")) = true ∧ ¬ seen.contains (pyStrip line) = true := by
          simp [h1, h2m]
        simp only [read_cadet_list_aux, if_pos hcond]
        rw [ih (pyStrip line :: seen) (acc ++ [pyStrip line])]
        simp only [dedupSeen, if_neg h2]
        simp

/-- Function `read_cadet_list` computes first-occurrence dedup of the trimmed
non-blank lines. -/
theorem read_cadet_list_eq (lines : List String) :
    read_cadet_list lines = dedupFirst (trimmedNonBlank lines) := by
  have h := read_cadet_list_aux_eq lines [] []
  rw [read_cadet_list, h, dedupSeen_eq]
  simp [trimmedNonBlank]

/-- First-occurrence dedup yields a subsequence. -/
theorem dedupFirst_sublist : ∀ l : List String, List.Sublist (dedupFirst l) l := by
  intro l
  induction l using dedupFirst.induct with
  | case1 =>
    rw [dedupFirst]
  | case2 x xs ih =>
    rw [dedupFirst]
    exact List.Sublist.cons₂ x (ih.trans (List.filter_sublist xs))

/-- First-occurrence dedup yields no duplicates. -/
theorem dedupFirst_nodup : ∀ l : List String, (dedupFirst l).Nodup := by
  intro l
  induction l using dedupFirst.induct with
  | case1 => simp [dedupFirst]
  | case2 x xs ih =>
    rw [dedupFirst]
    refine List.Nodup.cons ?_ ih
    intro hx
    have hmem := (dedupFirst_sublist _).subset hx
    have := (List.mem_filter.mp hmem).2
    simp at this

/-- First-occurrence dedup preserves membership. -/
theorem mem_dedupFirst : ∀ (l : List String) (a : String), a ∈ dedupFirst l ↔ a ∈ l := by
  intro l
  induction l using dedupFirst.induct with
  | case1 => simp [dedupFirst]
  | case2 x xs ih =>
    intro a
    rw [dedupFirst]
    by_cases ha : a = x
    · simp [ha]
    · simp only [List.mem_cons, ih a, List.mem_filter]
      simp [ha]

/-- C9: `read_cadet_list` returns the lines trimmed, with blank lines
skipped and duplicates removed keeping first occurrences in original order
(first-occurrence dedup of the trimmed non-blank lines, hence
duplicate-free and a subsequence of them); an unreadable source yields the
empty list instead of an exception. -/
theorem C9_read_cadet_list (lines : List String) :
    read_cadet_list lines = dedupFirst (trimmedNonBlank lines)
    ∧ (read_cadet_list lines).Nodup
    ∧ List.Sublist (read_cadet_list lines) (trimmedNonBlank lines)
    ∧ (∀ c, c ∈ read_cadet_list lines ↔ c ∈ trimmedNonBlank lines)
    ∧ read_cadet_list_file none = [] := by
  have he := read_cadet_list_eq lines
  refine ⟨he, ?_, ?_, ?_, rfl⟩
  · rw [he]
    exact dedupFirst_nodup _
  · rw [he]
    exact dedupFirst_sublist _
  · intro c
    rw [he]
    exact mem_dedupFirst _ c

/-- C4 (amended): for a supplied positive slot count, a filtered set larger
than the count splits into the first `n` by rank and the remaining
alternates, with sizes adding up to the filtered set's size; a filtered set
of at most that size stays one undivided group; and when the scored table's
identifiers are pairwise distinct, the matched rows and the unmatched
candidate identifiers (kept in candidate order) partition the deduplicated
candidate list by size. -/
theorem C4_slot_partition (df : List ScoredRow) (cap_ids : List String)
    (sorted_df : List ScoredRow) (n : Int)
    (hperm : sorted_df.Perm (filter_by_capids df cap_ids))
    (hn : 0 < n)
    (hdf : (df.map ScoredRow.capid).Nodup)
    (hids : cap_ids.Nodup) :
    ((sorted_df.length : Int) > n →
        write_slotting_groups sorted_df (some n)
          = SlotGroups.split (sorted_df.take n.toNat) (sorted_df.drop n.toNat)
        ∧ (sorted_df.take n.toNat).length = n.toNat
        ∧ (sorted_df.take n.toNat).length + (sorted_df.drop n.toNat).length
            = (filter_by_capids df cap_ids).length)
    ∧ ((sorted_df.length : Int) ≤ n →
        write_slotting_groups sorted_df (some n) = SlotGroups.single sorted_df)
    ∧ List.Sublist (unmatched_ids cap_ids (filter_by_capids df cap_ids)) cap_ids
    ∧ (filter_by_capids df cap_ids).length
        + (unmatched_ids cap_ids (filter_by_capids df cap_ids)).length
        = cap_ids.length := by
  have hlen : sorted_df.length = (filter_by_capids df cap_ids).length := hperm.length_eq
  refine ⟨?_, ?_, ?_, ?_⟩
  · intro hgt
    have hcond : n ≠ 0 ∧ (sorted_df.length : Int) > n := ⟨ne_of_gt hn, hgt⟩
    have hto : pySliceTo sorted_df n = sorted_df.take n.toNat := by
      simp only [pySliceTo, if_pos (le_of_lt hn)]
    have hfrom : pySliceFrom sorted_df n = sorted_df.drop n.toNat := by
      simp only [pySliceFrom, if_pos (le_of_lt hn)]
    refine ⟨?_, ?_, ?_⟩
    · simp only [write_slotting_groups, if_pos hcond, hto, hfrom]
    · rw [List.length_take]
      omega
    · rw [← List.length_append, List.take_append_drop]
      exact hlen
  · intro hle
    simp only [write_slotting_groups]
    rw [if_neg (fun hc => (not_lt.mpr hle) hc.2)]
  · exact List.filter_sublist cap_ids
  · have hMnodup : ((filter_by_capids df cap_ids).map ScoredRow.capid).Nodup :=
      List.Nodup.sublist ((List.filter_sublist df).map ScoredRow.capid) hdf
    have hMsubset : ∀ x ∈ (filter_by_capids df cap_ids).map ScoredRow.capid, x ∈ cap_ids := by
      intro x hx
      rcases List.mem_map.mp hx with ⟨r, hr, rfl⟩
      exact List.mem_of_elem_eq_true (List.mem_filter.mp hr).2
    have hpermM : (cap_ids.filter
          (fun cid => ((filter_by_capids df cap_ids).map ScoredRow.capid).contains cid)).Perm
        ((filter_by_capids df cap_ids).map ScoredRow.capid) := by
      apply List.perm_of_nodup_nodup_toFinset_eq (List.Nodup.filter _ hids) hMnodup
      apply List.toFinset.ext
      intro x
      simp only [List.mem_filter]
      constructor
      · intro hx
        exact List.mem_of_elem_eq_true hx.2
      · intro hx
        exact ⟨hMsubset x hx, List.elem_eq_true_of_mem hx⟩
    have hcount := List.length_eq_countP_add_countP
      (p := fun cid => ((filter_by_capids df cap_ids).map ScoredRow.capid).contains cid)
      cap_ids
    have hunm : (unmatched_ids cap_ids (filter_by_capids df cap_ids)).length
        = List.countP (fun a =>
            ¬((filter_by_capids df cap_ids).map ScoredRow.capid).contains a) cap_ids := by
      rw [unmatched_ids, ← List.countP_eq_length_filter]
      apply List.countP_congr
      intro a _
      simp
    have hmat : List.countP
          (fun cid => ((filter_by_capids df cap_ids).map ScoredRow.capid).contains cid) cap_ids
        = (filter_by_capids df cap_ids).length := by
      rw [List.countP_eq_length_filter, hpermM.length_eq, List.length_map]
    omega

/-- Witness for C4 with two matched records, one extra candidate and one
slot. -/
theorem C4_slot_partition_witness :
    write_slotting_groups [scoredA, scoredB] (some 1)
      = SlotGroups.split [scoredA] [scoredB]
    ∧ (filter_by_capids [scoredA, scoredB] ["0100", "100", "999"]).length
        + (unmatched_ids ["0100", "100", "999"]
            (filter_by_capids [scoredA, scoredB] ["0100", "100", "999"])).length
        = (["0100", "100", "999"] : List String).length := by
  have h := C4_slot_partition [scoredA, scoredB] ["0100", "100", "999"]
    [scoredA, scoredB] 1 (by decide) (by decide) (by decide) (by decide)
  constructor
  · rw [(h.1 (by decide)).1]
    decide
  · exact h.2.2.2

/-- Counterexample to C4 as stated: a supplied slot count of 0 leaves a
non-empty filtered set undivided although its size strictly exceeds 0, and
a scored table with duplicate identifiers breaks the size partition of the
candidate list. -/
theorem C4_counterexample :
    (([scoredA].length : Int) > 0)
    ∧ write_slotting_groups [scoredA] (some 0) = SlotGroups.single [scoredA]
    ∧ write_slotting_groups [scoredA] (some 0) ≠ SlotGroups.split [] [scoredA]
    ∧ (filter_by_capids [scoredB, scoredB] ["100"]).length
        + (unmatched_ids ["100"] (filter_by_capids [scoredB, scoredB] ["100"])).length
        ≠ (["100"] : List String).length := by
  refine ⟨by decide, by decide, by decide, by decide⟩
